import Mathlib

/-!
# Verification of the DCF valuation core (`src/DCF_Models.py`)

Shallow embedding of the forward DCF pipeline (`calculate_dcf`), the
sensitivity runner (`sensitivity_analysis`), the reverse solver
(`reverse_dcf`) and the reverse sensitivity runner
(`reverse_dcf_sensitivity`).

Modelling conventions:

* Python/numpy double-precision numbers are modelled by exact rationals
  (`ℚ`).  The numeric pipeline is written once, generically in the number
  type, and instantiated twice: at `ℚ` (the exact-arithmetic idealisation
  used for the functional claims) and at `PFloat` (rationals extended with
  `±∞` and `NaN`, used to observe the IEEE-754 non-finite behaviour of the
  source on degenerate inputs: numpy float division by zero yields `±inf`
  with only a runtime warning, and `NaN` inputs propagate through every
  arithmetic operation without raising).
* Python exceptions are modelled by `Except PyErr`.  The source contains
  no `raise` statement: the only exceptions it can produce are the
  implicit ones (`IndexError` from an out-of-range list subscript,
  `TypeError` from `list * float` or from formatting `None`).  The error
  type also carries the four error names of the specification's taxonomy
  so that statements about them can be made; the source never constructs
  any of those four.
* `years` is modelled as `ℕ` (the source's usage always passes a
  non-negative `int`; `np.zeros` of a negative size would raise, of a
  zero size gives an empty array whose first subscript raises
  `IndexError`).
-/

set_option linter.unusedVariables false

/-- Exceptions.  `indexError` and `typeError` are the Python exceptions the
source can actually raise; `invalidInput`, `divergentTerminalValue`,
`noConvergence` and `unknownVariable` are the specification's error
taxonomy (section 7), present only so that claims about them are statable —
no code path of `src/DCF_Models.py` raises anything by those names. -/
inductive PyErr where
  | indexError
  | typeError
  | invalidInput
  | divergentTerminalValue
  | noConvergence
  | unknownVariable
  deriving DecidableEq, Repr

/-- The keyword arguments of `calculate_dcf` (source lines 4–14), generic in
the number type `α`. -/
structure DCFInputsG (α : Type) where
  revenue_growth_rates : List α
  ebit_margins : List α
  tax_rate : α
  nwc_percent : α
  capex_percent : α
  discount_rate : α
  terminal_growth_rate : α
  initial_revenue : α
  years : ℕ := 5
  deriving DecidableEq, Repr

/-- The outputs of `calculate_dcf`: the columns of the summary `DataFrame`
(source lines 75–83) together with the `terminal_value` and
`enterprise_value` entries of the returned dict (lines 85–89). -/
structure DCFResultG (α : Type) where
  revenues : List α
  ebit : List α
  nopat : List α
  nwc_changes : List α
  capex : List α
  fcf : List α
  pv_fcf : List α
  terminal_value : α
  enterprise_value : α
  deriving DecidableEq, Repr

section Pipeline

variable {α : Type} [Add α] [Sub α] [Mul α] [Div α] [Zero α] [One α]

/-- `xs[min i (len(xs)-1)]` — the clamped subscript of source lines 41 and
45 (`min(i, len(...)-1)`).  The `getD` default is never reached when `xs`
is non-empty, which the `calculate_dcf` guard ensures. -/
def clampGet (xs : List α) (i : ℕ) : α :=
  xs.getD (min i (xs.length - 1)) 0

/-- Iterated product, modelling Python's `x ** n` for a natural `n`. -/
def powN (x : α) : ℕ → α
  | 0 => 1
  | n + 1 => powN x n * x

/-- `np.sum`, modelled as a left-to-right fold from `0` (summation order is
irrelevant over exact arithmetic). -/
def sumL (l : List α) : α :=
  l.foldl (· + ·) 0

/-- `revenues` (source lines 38–41): `revenues[0] =
initial_revenue * (1 + revenue_growth_rates[0])` and `revenues[i] =
revenues[i-1] * (1 + revenue_growth_rates[min(i, len-1)])`. -/
def revenueAt (a : DCFInputsG α) : ℕ → α
  | 0 => a.initial_revenue * (1 + a.revenue_growth_rates.getD 0 0)
  | i + 1 => revenueAt a i * (1 + clampGet a.revenue_growth_rates (i + 1))

/-- `ebit` (source lines 44–45): `ebit[i] = revenues[i] *
ebit_margins[min(i, len-1)]`. -/
def ebitAt (a : DCFInputsG α) (i : ℕ) : α :=
  revenueAt a i * clampGet a.ebit_margins i

/-- `nopat = ebit * (1 - tax_rate)` (source line 48, numpy pointwise). -/
def nopatAt (a : DCFInputsG α) (i : ℕ) : α :=
  ebitAt a i * (1 - a.tax_rate)

/-- The `nwc` level series of `years + 1` points (source lines 51–53):
`nwc[0] = initial_revenue * nwc_percent`, `nwc[i+1] = revenues[i] *
nwc_percent`. -/
def nwcLevel (a : DCFInputsG α) : ℕ → α
  | 0 => a.initial_revenue * a.nwc_percent
  | i + 1 => revenueAt a i * a.nwc_percent

/-- `nwc_changes = np.diff(nwc)` (source line 54): the first difference of
the level series. -/
def nwcChangeAt (a : DCFInputsG α) (i : ℕ) : α :=
  nwcLevel a (i + 1) - nwcLevel a i

/-- `capex = revenues * capex_percent` (source line 57, numpy pointwise). -/
def capexAt (a : DCFInputsG α) (i : ℕ) : α :=
  revenueAt a i * a.capex_percent

/-- `fcf = nopat - nwc_changes - capex` (source line 60, numpy pointwise). -/
def fcfAt (a : DCFInputsG α) (i : ℕ) : α :=
  nopatAt a i - nwcChangeAt a i - capexAt a i

/-- `discount_factors` (source line 67): the `i`-th entry (0-based) is
`(1 + discount_rate) ** -(i+1)`, i.e. the reciprocal of the positive
power. -/
def discountFactorAt (a : DCFInputsG α) (i : ℕ) : α :=
  1 / powN (1 + a.discount_rate) (i + 1)

/-- `pv_fcf = fcf * discount_factors` (source line 68, numpy pointwise). -/
def pvFcfAt (a : DCFInputsG α) (i : ℕ) : α :=
  fcfAt a i * discountFactorAt a i

/-- `terminal_fcf = fcf[-1] * (1 + terminal_growth_rate)` (source line 63);
`fcf[-1] = fcf[years-1]` for `years ≥ 1`. -/
def terminalFcf (a : DCFInputsG α) : α :=
  fcfAt a (a.years - 1) * (1 + a.terminal_growth_rate)

/-- `terminal_value = terminal_fcf / (discount_rate - terminal_growth_rate)`
(source line 64).  The division is performed unconditionally — there is no
divergence check in the source. -/
def terminalValue (a : DCFInputsG α) : α :=
  terminalFcf a / (a.discount_rate - a.terminal_growth_rate)

/-- `pv_terminal_value = terminal_value * discount_factors[-1]` (source
line 69); `discount_factors[-1] = discount_factors[years-1]`. -/
def pvTerminalValue (a : DCFInputsG α) : α :=
  terminalValue a * discountFactorAt a (a.years - 1)

/-- `enterprise_value = np.sum(pv_fcf) + pv_terminal_value`
(source line 72). -/
def enterpriseValue (a : DCFInputsG α) : α :=
  sumL ((List.range a.years).map (pvFcfAt a)) + pvTerminalValue a

/-- The full result record assembled by `calculate_dcf` on the non-failing
path (source lines 30–89). -/
def mkResult (a : DCFInputsG α) : DCFResultG α :=
  { revenues := (List.range a.years).map (revenueAt a)
    ebit := (List.range a.years).map (ebitAt a)
    nopat := (List.range a.years).map (nopatAt a)
    nwc_changes := (List.range a.years).map (nwcChangeAt a)
    capex := (List.range a.years).map (capexAt a)
    fcf := (List.range a.years).map (fcfAt a)
    pv_fcf := (List.range a.years).map (pvFcfAt a)
    terminal_value := terminalValue a
    enterprise_value := enterpriseValue a }

/-- `calculate_dcf` (source lines 4–89).  The guard captures exactly the
implicit `IndexError`s of the source: `revenues[0]` on a length-0 array
when `years = 0` (line 39), `revenue_growth_rates[0]` on an empty list
(line 39), and `ebit_margins[min(i, -1)]` on an empty list (line 45).  The
source performs no other validation: in particular there is no check on
`discount_rate` versus `terminal_growth_rate` and no finiteness check on
any rate. -/
def calculate_dcf [DecidableEq α] (a : DCFInputsG α) : Except PyErr (DCFResultG α) :=
  if a.years = 0 ∨ a.revenue_growth_rates = [] ∨ a.ebit_margins = [] then
    .error .indexError
  else
    .ok (mkResult a)

end Pipeline

/-- The exact-rational instantiation of the model (the idealisation of the
source's `float64` arithmetic used for the functional claims). -/
abbrev DCFInputs := DCFInputsG ℚ

/-- The exact-rational result type. -/
abbrev DCFResult := DCFResultG ℚ

/-!
## A float model with non-finite values

`PFloat` is ℚ extended with `±∞` and `NaN`, with the IEEE-754 propagation
rules for the operations the pipeline uses (negative zero is not modelled;
no rounding, since only the non-finite behaviour is of interest here).  It
exists to observe what the source, which computes in `float64`, does on
degenerate inputs: division of a non-zero number by zero yields `±inf`
(numpy emits a runtime warning but raises nothing), and a `NaN` operand
makes every arithmetic result `NaN`. -/
inductive PFloat where
  | fin (q : ℚ)
  | inf
  | ninf
  | nan
  deriving DecidableEq, Repr

namespace PFloat

/-- IEEE addition on the extended values. -/
def add : PFloat → PFloat → PFloat
  | nan, _ => nan
  | _, nan => nan
  | inf, ninf => nan
  | ninf, inf => nan
  | inf, _ => inf
  | _, inf => inf
  | ninf, _ => ninf
  | _, ninf => ninf
  | fin a, fin b => fin (a + b)

/-- IEEE negation. -/
def neg : PFloat → PFloat
  | nan => nan
  | inf => ninf
  | ninf => inf
  | fin a => fin (-a)

/-- IEEE subtraction: `x - y = x + (-y)`. -/
def sub (x y : PFloat) : PFloat := add x (neg y)

/-- IEEE multiplication on the extended values (`∞ × 0 = NaN`). -/
def mul : PFloat → PFloat → PFloat
  | nan, _ => nan
  | _, nan => nan
  | fin a, fin b => fin (a * b)
  | inf, inf => inf
  | inf, ninf => ninf
  | ninf, inf => ninf
  | ninf, ninf => inf
  | inf, fin b => if b = 0 then nan else if 0 < b then inf else ninf
  | fin a, inf => if a = 0 then nan else if 0 < a then inf else ninf
  | ninf, fin b => if b = 0 then nan else if 0 < b then ninf else inf
  | fin a, ninf => if a = 0 then nan else if 0 < a then ninf else inf

/-- IEEE division on the extended values: a non-zero finite number divided
by zero is `±∞` (this is what numpy's `float64` division does, with only a
`RuntimeWarning`), `0/0 = ∞/∞ = NaN`. -/
def div : PFloat → PFloat → PFloat
  | nan, _ => nan
  | _, nan => nan
  | fin a, fin b =>
      if b = 0 then (if a = 0 then nan else if 0 < a then inf else ninf)
      else fin (a / b)
  | fin _, inf => fin 0
  | fin _, ninf => fin 0
  | inf, fin b => if 0 ≤ b then inf else ninf
  | ninf, fin b => if 0 ≤ b then ninf else inf
  | inf, _ => nan
  | ninf, _ => nan

instance : Add PFloat := ⟨add⟩
instance : Neg PFloat := ⟨neg⟩
instance : Sub PFloat := ⟨sub⟩
instance : Mul PFloat := ⟨mul⟩
instance : Div PFloat := ⟨div⟩
instance : Zero PFloat := ⟨fin 0⟩
instance : One PFloat := ⟨fin 1⟩

end PFloat

/-!
## Sensitivity runner (`sensitivity_analysis`, source lines 107–147)
-/

/-- The keys of the `base_inputs` dict that `sensitivity_analysis` can be
asked to perturb (the usage dicts of the source carry exactly these eight
keys; `years` is never present and is taken by default).  An unknown string
would raise `KeyError` at `base_inputs[var]`; modelling the variable as an
enumeration removes that out-of-scope failure mode. -/
inductive Variable where
  | revenue_growth_rates
  | ebit_margins
  | tax_rate
  | nwc_percent
  | capex_percent
  | discount_rate
  | terminal_growth_rate
  | initial_revenue
  deriving DecidableEq, Repr

/-- The body of source lines 124–133: scale the named entry of the dict,
element-wise when it is a `list` (the `isinstance(base_var_value, list)`
branch), as a scalar otherwise, and leave every other entry of the shallow
copy unchanged. -/
def modifyInputs (base : DCFInputs) (v : Variable) (p : ℚ) : DCFInputs :=
  match v with
  | .revenue_growth_rates =>
      { base with revenue_growth_rates := base.revenue_growth_rates.map (· * (1 + p)) }
  | .ebit_margins =>
      { base with ebit_margins := base.ebit_margins.map (· * (1 + p)) }
  | .tax_rate => { base with tax_rate := base.tax_rate * (1 + p) }
  | .nwc_percent => { base with nwc_percent := base.nwc_percent * (1 + p) }
  | .capex_percent => { base with capex_percent := base.capex_percent * (1 + p) }
  | .discount_rate => { base with discount_rate := base.discount_rate * (1 + p) }
  | .terminal_growth_rate =>
      { base with terminal_growth_rate := base.terminal_growth_rate * (1 + p) }
  | .initial_revenue => { base with initial_revenue := base.initial_revenue * (1 + p) }

/-- One row of a sensitivity `DataFrame` (source lines 139–143).  The source
stores `change_in_input` and `value_change` as formatted percent strings;
the numeric quantities being formatted are recorded here — string rendering
is the out-of-scope reporting layer. -/
structure SensRow where
  change_in_input : ℚ
  enterprise_value : ℚ
  value_change : ℚ
  deriving DecidableEq, Repr

/-- A Python `for` loop building a list, whose body can raise: the first
exception aborts the whole call. -/
def mapE {σ τ : Type} (f : σ → Except PyErr τ) : List σ → Except PyErr (List τ)
  | [] => .ok []
  | a :: l =>
    match f a with
    | .error e => .error e
    | .ok b =>
      match mapE f l with
      | .error e => .error e
      | .ok bs => .ok (b :: bs)

/-- The inner loop of `sensitivity_analysis` for one variable (source lines
120–145), given the already-computed base enterprise value `base_value`
(line 117): for each perturbation, rebuild the inputs, recompute, and
record the row `(p, new_value, (new_value - base_value) / base_value)`. -/
def sensitivityRows (base : DCFInputs) (base_value : ℚ) (v : Variable)
    (ps : List ℚ) : Except PyErr (List SensRow) :=
  mapE (fun p =>
    match calculate_dcf (modifyInputs base v p) with
    | .error e => .error e
    | .ok r =>
        .ok ⟨p, r.enterprise_value,
             (r.enterprise_value - base_value) / base_value⟩) ps

/-- `sensitivity_analysis` restricted to a single analysed variable — one
iteration of the outer loop over `variables` (the outer loop and the
per-variable `DataFrame` packaging are straight aggregation).
`base_value` is computed once, before any perturbation (source line
117). -/
def sensitivity_analysis_var (base : DCFInputs) (v : Variable) (ps : List ℚ) :
    Except PyErr (List SensRow) :=
  match calculate_dcf base with
  | .error e => .error e
  | .ok r₀ => sensitivityRows base r₀.enterprise_value v ps

/-- `sensitivity_analysis` (source lines 107–147): the base value is
computed once, then each requested variable is swept over its range of
perturbations; rows are emitted in input order. -/
def sensitivity_analysis (base : DCFInputs) (vs : List Variable)
    (ranges : Variable → List ℚ) : Except PyErr (List (Variable × List SensRow)) :=
  match calculate_dcf base with
  | .error e => .error e
  | .ok r₀ =>
      mapE (fun v =>
        match sensitivityRows base r₀.enterprise_value v (ranges v) with
        | .error e => .error e
        | .ok rows => .ok (v, rows)) vs

/-!
## Reverse solver (`reverse_dcf`, source lines 176–230)
-/

/-- The keyword arguments of `reverse_dcf` (source lines 176–188). -/
structure ReverseInputs where
  current_price : ℚ
  shares_outstanding : ℚ
  net_debt : ℚ
  initial_revenue : ℚ
  ebit_margins : List ℚ
  tax_rate : ℚ
  nwc_percent : ℚ
  capex_percent : ℚ
  discount_rate : ℚ
  terminal_growth_rate : ℚ
  years : ℕ := 5
  iteration_range : ℚ × ℚ × ℚ := (0, 1/2, 1/1000)
  deriving DecidableEq, Repr

/-- `np.arange(start, stop, step)` over exact rationals: the
`⌈(stop-start)/step⌉`-many points `start + i·step`, a half-open grid —
when `stop` is an exact multiple of `step` away from `start` it is
excluded.  (For `step = 0` numpy raises; rational division by zero makes
the grid empty here, and no claim touches that case.) -/
def arangeQ (start stop step : ℚ) : List ℚ :=
  (List.range (Int.toNat ⌈(stop - start) / step⌉)).map
    (fun i : ℕ => start + (i : ℚ) * step)

/-- `target_ev = market_cap + net_debt` with
`market_cap = current_price * shares_outstanding` (source lines 200–201). -/
def targetEv (q : ReverseInputs) : ℚ :=
  q.current_price * q.shares_outstanding + q.net_debt

/-- The candidate grid `growth_rates = np.arange(min_growth, max_growth,
step)` (source lines 203–204). -/
def gridOf (q : ReverseInputs) : List ℚ :=
  arangeQ q.iteration_range.1 q.iteration_range.2.1 q.iteration_range.2.2

/-- The `inputs` dict built for one candidate `growth` (source lines
210–221): `revenue_growth_rates = [growth] * years`, every other field
taken unchanged from the query. -/
def mkGrowthInputs (q : ReverseInputs) (g : ℚ) : DCFInputs :=
  { revenue_growth_rates := List.replicate q.years g
    ebit_margins := q.ebit_margins
    tax_rate := q.tax_rate
    nwc_percent := q.nwc_percent
    capex_percent := q.capex_percent
    discount_rate := q.discount_rate
    terminal_growth_rate := q.terminal_growth_rate
    initial_revenue := q.initial_revenue
    years := q.years }

/-- `difference < min_difference` where `min_difference` starts at
`float('inf')` (source line 207): `none` models `inf`, and every rational
is below it. -/
def ltInf (d : ℚ) : Option ℚ → Bool
  | none => true
  | some m => decide (d < m)

/-- The loop body of `reverse_dcf` (source lines 209–228) on the state
`(closest_growth, min_difference)`, once `calculate_dcf` has returned:
strict improvement installs the candidate, otherwise the state is kept
(ties keep the earlier candidate). -/
def scanStep (f : ℚ → ℚ) (st : Option ℚ × Option ℚ) (g : ℚ) : Option ℚ × Option ℚ :=
  if ltInf (f g) st.2 then (some g, some (f g)) else st

/-- The loop of `reverse_dcf` with a body that can raise (the
`calculate_dcf` call inside may fail): the first exception aborts the
call. -/
def foldE {σ : Type} (f : σ → ℚ → Except PyErr σ) : σ → List ℚ → Except PyErr σ
  | s, [] => .ok s
  | s, g :: l =>
    match f s g with
    | .error e => .error e
    | .ok s' => foldE f s' l

/-- One iteration of the `reverse_dcf` loop (source lines 209–228):
evaluate the candidate through `calculate_dcf` and apply the
strict-improvement update. -/
def reverseStep (q : ReverseInputs) (st : Option ℚ × Option ℚ) (g : ℚ) :
    Except PyErr (Option ℚ × Option ℚ) :=
  match calculate_dcf (mkGrowthInputs q g) with
  | .error e => .error e
  | .ok r => .ok (scanStep (fun _ => |r.enterprise_value - targetEv q|) st g)

/-- `reverse_dcf` (source lines 176–230): linear scan of the candidate
grid, keeping the first candidate attaining the minimum
`|calculated_ev - target_ev|`; `closest_growth` starts as `None` and is
returned as-is — an empty grid returns `None`, no error is raised. -/
def reverse_dcf (q : ReverseInputs) : Except PyErr (Option ℚ) :=
  match foldE (reverseStep q) (none, none) (gridOf q) with
  | .error e => .error e
  | .ok st => .ok st.1

/-!
## Reverse sensitivity runner (`reverse_dcf_sensitivity`, source lines 232–266)
-/

/-- The keys of the `base_inputs` dict of `reverse_dcf_sensitivity` (the
usage dict of source lines 269–280 carries exactly these ten keys; `years`
and `iteration_range` are never present and are taken by default). -/
inductive RVariable where
  | current_price
  | shares_outstanding
  | net_debt
  | initial_revenue
  | ebit_margins
  | tax_rate
  | nwc_percent
  | capex_percent
  | discount_rate
  | terminal_growth_rate
  deriving DecidableEq, Repr

/-- Source line 254: `modified_inputs[var] = base_var_value * (1 +
pct_change)`, with **no** `isinstance(..., list)` branch (unlike
`sensitivity_analysis`, source lines 124–129).  For a scalar entry this is
plain scaling.  For the one list-valued entry, `ebit_margins`, Python's
`list * x` is never element-wise scaling: with a float multiplier `1 + p`
(the perturbations are fractions; a perturbation is modelled as
float-typed throughout) it raises `TypeError: can't multiply sequence by
non-int`, and even with an exactly integral multiplier it would be
sequence repetition.  The `TypeError` is what is modelled. -/
def reverseModify (q : ReverseInputs) (v : RVariable) (p : ℚ) :
    Except PyErr ReverseInputs :=
  match v with
  | .current_price => .ok { q with current_price := q.current_price * (1 + p) }
  | .shares_outstanding =>
      .ok { q with shares_outstanding := q.shares_outstanding * (1 + p) }
  | .net_debt => .ok { q with net_debt := q.net_debt * (1 + p) }
  | .initial_revenue => .ok { q with initial_revenue := q.initial_revenue * (1 + p) }
  | .ebit_margins => .error .typeError
  | .tax_rate => .ok { q with tax_rate := q.tax_rate * (1 + p) }
  | .nwc_percent => .ok { q with nwc_percent := q.nwc_percent * (1 + p) }
  | .capex_percent => .ok { q with capex_percent := q.capex_percent * (1 + p) }
  | .discount_rate => .ok { q with discount_rate := q.discount_rate * (1 + p) }
  | .terminal_growth_rate =>
      .ok { q with terminal_growth_rate := q.terminal_growth_rate * (1 + p) }

/-- One row of a reverse-sensitivity `DataFrame` (source lines 258–262);
as with `SensRow`, the numeric quantities behind the formatted strings. -/
structure RSensRow where
  change_in_input : ℚ
  implied_growth : ℚ
  growth_delta : ℚ
  deriving DecidableEq, Repr

/-- The body of the inner loop of `reverse_dcf_sensitivity` (source lines
252–262) for one perturbation: rebuild the query, re-solve, and record
`(p, implied_growth, implied_growth - base_growth)`.  When either solve
returned `None`, the `f"{...:.1%}"` formatting of source lines 260–261
raises `TypeError`. -/
def reverseRow (q : ReverseInputs) (v : RVariable) (base_og : Option ℚ) (p : ℚ) :
    Except PyErr RSensRow :=
  match reverseModify q v p with
  | .error e => .error e
  | .ok q' =>
    match reverse_dcf q' with
    | .error e => .error e
    | .ok oig =>
      match oig, base_og with
      | some ig, some b => .ok ⟨p, ig, ig - b⟩
      | _, _ => .error .typeError

/-- `reverse_dcf_sensitivity` restricted to a single analysed variable —
one iteration of the outer loop over `variables`.  `base_growth` is the
solve of the unmodified query, computed once up front (source line
246). -/
def reverse_dcf_sensitivity_var (q : ReverseInputs) (v : RVariable)
    (ps : List ℚ) : Except PyErr (List RSensRow) :=
  match reverse_dcf q with
  | .error e => .error e
  | .ok og => mapE (reverseRow q v og) ps

/-- `reverse_dcf_sensitivity` (source lines 232–266): `base_growth` is
computed once, then each requested variable is swept over its range of
perturbations. -/
def reverse_dcf_sensitivity (q : ReverseInputs) (vs : List RVariable)
    (ranges : RVariable → List ℚ) :
    Except PyErr (List (RVariable × List RSensRow)) :=
  match reverse_dcf q with
  | .error e => .error e
  | .ok og =>
      mapE (fun v =>
        match mapE (reverseRow q v og) (ranges v) with
        | .error e => .error e
        | .ok rows => .ok (v, rows)) vs

/-!
## Supporting lemmas
-/

/-- Reading the `i`-th entry of an array built as `(List.range n).map f`. -/
theorem getD_range_map {α : Type} (f : ℕ → α) (d : α) {n i : ℕ} (h : i < n) :
    ((List.range n).map f).getD i d = f i := by
  rw [List.getD_eq_getElem?_getD]
  simp [List.getElem?_map, List.getElem?_range h]

/-- On well-formed inputs (`years ≥ 1`, non-empty growth and margin lists)
no subscript of `calculate_dcf` is out of range and the assembled result is
returned. -/
theorem calculate_dcf_ok {α : Type} [Add α] [Sub α] [Mul α] [Div α] [Zero α]
    [One α] [DecidableEq α] (a : DCFInputsG α) (hy : a.years ≠ 0)
    (hg : a.revenue_growth_rates ≠ []) (hm : a.ebit_margins ≠ []) :
    calculate_dcf a = .ok (mkResult a) := by
  simp [calculate_dcf, hy, hg, hm]

/-- Claim C1 — for every `AssumptionSet` with `years ≥ 1` and non-empty
growth and margin sequences, `calculate_dcf` produces arrays of length
`years` with: `revenue[0] = initial_revenue·(1+growth[clamp 0])`,
`revenue[i] = revenue[i-1]·(1+growth[clamp i])` for `clamp i =
min i (len growth - 1)` (clamp-to-last, not wraparound);
`ebit[i] = revenue[i]·margin[clamp i]`; `nopat[i] = ebit[i]·(1-tax_rate)`;
`nwc_change[i]` the first difference of the `years+1`-point level series
`level 0 = initial_revenue·nwc_percent`, `level (i+1) =
revenue[i]·nwc_percent`; `capex[i] = revenue[i]·capex_percent`; and
`fcf[i] = nopat[i] - nwc_change[i] - capex[i]`. -/
theorem C1_projection (a : DCFInputs) (hy : 1 ≤ a.years)
    (hg : a.revenue_growth_rates ≠ []) (hm : a.ebit_margins ≠ []) :
    calculate_dcf a = .ok (mkResult a) ∧
    (mkResult a).revenues.length = a.years ∧
    (mkResult a).ebit.length = a.years ∧
    (mkResult a).nopat.length = a.years ∧
    (mkResult a).nwc_changes.length = a.years ∧
    (mkResult a).capex.length = a.years ∧
    (mkResult a).fcf.length = a.years ∧
    (mkResult a).revenues.getD 0 0
      = a.initial_revenue
          * (1 + a.revenue_growth_rates.getD
              (min 0 (a.revenue_growth_rates.length - 1)) 0) ∧
    (∀ i, 0 < i → i < a.years →
      (mkResult a).revenues.getD i 0
        = (mkResult a).revenues.getD (i - 1) 0
            * (1 + a.revenue_growth_rates.getD
                (min i (a.revenue_growth_rates.length - 1)) 0)) ∧
    (∀ i < a.years,
      (mkResult a).ebit.getD i 0
        = (mkResult a).revenues.getD i 0
            * a.ebit_margins.getD (min i (a.ebit_margins.length - 1)) 0) ∧
    (∀ i < a.years,
      (mkResult a).nopat.getD i 0 = (mkResult a).ebit.getD i 0 * (1 - a.tax_rate)) ∧
    nwcLevel a 0 = a.initial_revenue * a.nwc_percent ∧
    (∀ i < a.years,
      nwcLevel a (i + 1) = (mkResult a).revenues.getD i 0 * a.nwc_percent) ∧
    (∀ i < a.years,
      (mkResult a).nwc_changes.getD i 0 = nwcLevel a (i + 1) - nwcLevel a i) ∧
    (∀ i < a.years,
      (mkResult a).capex.getD i 0
        = (mkResult a).revenues.getD i 0 * a.capex_percent) ∧
    (∀ i < a.years,
      (mkResult a).fcf.getD i 0
        = (mkResult a).nopat.getD i 0 - (mkResult a).nwc_changes.getD i 0
            - (mkResult a).capex.getD i 0) := by
  have hy0 : a.years ≠ 0 := by omega
  have h0 : 0 < a.years := hy
  refine ⟨calculate_dcf_ok a hy0 hg hm, ?_, ?_, ?_, ?_, ?_, ?_, ?_, ?_, ?_, ?_,
    rfl, ?_, ?_, ?_, ?_⟩
  · simp [mkResult]
  · simp [mkResult]
  · simp [mkResult]
  · simp [mkResult]
  · simp [mkResult]
  · simp [mkResult]
  · simp only [mkResult]
    rw [getD_range_map _ _ h0]
    simp [revenueAt, Nat.zero_min]
  · intro i hi0 hiy
    obtain ⟨j, rfl⟩ : ∃ j, i = j + 1 := ⟨i - 1, by omega⟩
    have hj : j < a.years := by omega
    simp only [mkResult, Nat.add_sub_cancel]
    rw [getD_range_map _ _ hiy, getD_range_map _ _ hj]
    rfl
  · intro i hi
    simp only [mkResult]
    rw [getD_range_map _ _ hi, getD_range_map _ _ hi]
    rfl
  · intro i hi
    simp only [mkResult]
    rw [getD_range_map _ _ hi, getD_range_map _ _ hi]
    rfl
  · intro i hi
    simp only [mkResult]
    rw [getD_range_map _ _ hi]
    rfl
  · intro i hi
    simp only [mkResult]
    rw [getD_range_map _ _ hi]
    rfl
  · intro i hi
    simp only [mkResult]
    rw [getD_range_map _ _ hi, getD_range_map _ _ hi]
    rfl
  · intro i hi
    simp only [mkResult]
    rw [getD_range_map (fcfAt a) _ hi, getD_range_map (nopatAt a) _ hi,
      getD_range_map (nwcChangeAt a) _ hi, getD_range_map (capexAt a) _ hi]
    rfl

/-- `powN` over a field agrees with the monoid power. -/
theorem powN_eq_pow (x : ℚ) (n : ℕ) : powN x n = x ^ n := by
  induction n with
  | zero => simp [powN]
  | succ n ih => simp [powN, ih, pow_succ]

/-- The reference inputs of the source's usage block (lines 92–101):
growth `[0.15, 0.12, 0.10, 0.08, 0.06]`, margins
`[0.25, 0.26, 0.27, 0.27, 0.28]`, tax `0.25`, nwc `0.12`, capex `0.08`,
discount `0.10`, terminal growth `0.02`, initial revenue `1,000,000`,
five years. -/
def aRef : DCFInputs :=
  { revenue_growth_rates := [3/20, 3/25, 1/10, 2/25, 3/50]
    ebit_margins := [1/4, 13/50, 27/100, 27/100, 7/25]
    tax_rate := 1/4
    nwc_percent := 3/25
    capex_percent := 2/25
    discount_rate := 1/10
    terminal_growth_rate := 1/50
    initial_revenue := 1000000
    years := 5 }

/-- Witness for C1: the reference inputs satisfy the hypotheses of
`C1_projection`, and the theorem applies to them. -/
theorem C1_projection_witness :
    (1 ≤ aRef.years ∧ aRef.revenue_growth_rates ≠ [] ∧ aRef.ebit_margins ≠ []) ∧
    calculate_dcf aRef = .ok (mkResult aRef) :=
  ⟨⟨by decide, by decide, by decide⟩,
   (C1_projection aRef (by decide) (by decide) (by decide)).1⟩

/-- Claim C2 — for every valid `AssumptionSet` (`years ≥ 1`, non-empty
sequences, `discount_rate > terminal_growth_rate`), `calculate_dcf`
returns `terminal_value = fcf[years-1]·(1+terminal_growth_rate) /
(discount_rate - terminal_growth_rate)`, period-end discount factors
`discount_factor[i] = (1+discount_rate)^-(i+1)`, `pv_fcf[i] =
fcf[i]·discount_factor[i]`, and `enterprise_value = sum(pv_fcf) +
terminal_value·discount_factor[years-1]` (the summation being the
left-to-right fold over the year index). -/
theorem C2_valuation (a : DCFInputs) (hy : 1 ≤ a.years)
    (hg : a.revenue_growth_rates ≠ []) (hm : a.ebit_margins ≠ [])
    (hd : a.terminal_growth_rate < a.discount_rate) :
    calculate_dcf a = .ok (mkResult a) ∧
    (mkResult a).terminal_value
      = (mkResult a).fcf.getD (a.years - 1) 0 * (1 + a.terminal_growth_rate)
          / (a.discount_rate - a.terminal_growth_rate) ∧
    (∀ i < a.years,
      discountFactorAt a i = (1 + a.discount_rate) ^ (-((i : ℤ) + 1))) ∧
    (mkResult a).pv_fcf.length = a.years ∧
    (∀ i < a.years,
      (mkResult a).pv_fcf.getD i 0
        = (mkResult a).fcf.getD i 0 * discountFactorAt a i) ∧
    (mkResult a).enterprise_value
      = sumL (mkResult a).pv_fcf
          + (mkResult a).terminal_value * discountFactorAt a (a.years - 1) := by
  have hy1 : a.years - 1 < a.years := by omega
  refine ⟨calculate_dcf_ok a (by omega) hg hm, ?_, ?_, ?_, ?_, rfl⟩
  · simp only [mkResult]
    rw [getD_range_map _ _ hy1]
    rfl
  · intro i hi
    rw [zpow_neg, discountFactorAt, powN_eq_pow, one_div]
    norm_cast
  · simp [mkResult]
  · intro i hi
    simp only [mkResult]
    rw [getD_range_map _ _ hi, getD_range_map _ _ hi]
    rfl

/-- Witness for C2: the reference inputs satisfy the hypotheses of
`C2_valuation`, and the theorem applies to them. -/
theorem C2_valuation_witness :
    (1 ≤ aRef.years ∧ aRef.revenue_growth_rates ≠ [] ∧ aRef.ebit_margins ≠ [] ∧
      aRef.terminal_growth_rate < aRef.discount_rate) ∧
    calculate_dcf aRef = .ok (mkResult aRef) :=
  ⟨⟨by decide, by decide, by decide, by norm_num [aRef]⟩,
   (C2_valuation aRef (by decide) (by decide) (by decide) (by norm_num [aRef])).1⟩

/-!
## Computation rules for `PFloat`
-/

namespace PFloat

@[simp] theorem fin_add_fin (a b : ℚ) : fin a + fin b = fin (a + b) := rfl

@[simp] theorem nan_add (x : PFloat) : nan + x = nan := by cases x <;> rfl

@[simp] theorem add_nan (x : PFloat) : x + nan = nan := by cases x <;> rfl

@[simp] theorem one_add_fin (a : ℚ) : (1 : PFloat) + fin a = fin (1 + a) := rfl

@[simp] theorem zero_add_nan : (0 : PFloat) + nan = nan := rfl

@[simp] theorem fin_mul_fin (a b : ℚ) : fin a * fin b = fin (a * b) := rfl

@[simp] theorem nan_mul (x : PFloat) : nan * x = nan := by cases x <;> rfl

@[simp] theorem mul_nan (x : PFloat) : x * nan = nan := by cases x <;> rfl

@[simp] theorem fin_sub_fin (a b : ℚ) : fin a - fin b = fin (a - b) := by
  show fin (a + -b) = fin (a - b)
  rw [← sub_eq_add_neg]

@[simp] theorem one_sub_fin (a : ℚ) : (1 : PFloat) - fin a = fin (1 - a) := by
  show fin (1 + -a) = fin (1 - a)
  rw [← sub_eq_add_neg]

@[simp] theorem one_sub_nan : (1 : PFloat) - nan = nan := rfl

@[simp] theorem nan_sub (x : PFloat) : nan - x = nan := by cases x <;> rfl

@[simp] theorem sub_nan (x : PFloat) : x - nan = nan := by cases x <;> rfl

@[simp] theorem nan_div (x : PFloat) : nan / x = nan := by cases x <;> rfl

@[simp] theorem div_nan (x : PFloat) : x / nan = nan := by cases x <;> rfl

/-- Finite division with a non-zero denominator stays finite. -/
theorem fin_div_fin (a b : ℚ) (h : b ≠ 0) : fin a / fin b = fin (a / b) := by
  show div (fin a) (fin b) = fin (a / b)
  simp [div, h]

/-- IEEE division of a positive finite number by (positive) zero:
the result is `+∞`, not an exception. -/
theorem fin_div_fin_zero (a : ℚ) (h : 0 < a) : fin a / fin 0 = inf := by
  show div (fin a) (fin 0) = inf
  simp [div, h, ne_of_gt h]

end PFloat

/-!
## Claim C3 — divergent terminal value
-/

/-- C3 counterexample input: `discount_rate = terminal_growth_rate = 0.02`
(the Gordon-growth pole), all other inputs benign, in the float model. -/
def aPole : DCFInputsG PFloat :=
  { revenue_growth_rates := [.fin (1/10)]
    ebit_margins := [.fin (1/5)]
    tax_rate := .fin 0
    nwc_percent := .fin 0
    capex_percent := .fin 0
    discount_rate := .fin (1/50)
    terminal_growth_rate := .fin (1/50)
    initial_revenue := .fin 100
    years := 1 }

/-- Counterexample to claim C3.  At `discount_rate = terminal_growth_rate`
the source does not raise `DivergentTerminalValue` (it has no such check):
`calculate_dcf` returns normally, the Gordon division is performed on a
zero denominator, and the float terminal value is `+∞`. -/
theorem C3_counterexample :
    aPole.discount_rate = aPole.terminal_growth_rate ∧
    calculate_dcf aPole = .ok (mkResult aPole) ∧
    (mkResult aPole).terminal_value = PFloat.inf := by
  refine ⟨rfl, calculate_dcf_ok aPole (by decide) (by decide) (by decide), ?_⟩
  norm_num [mkResult, terminalValue, terminalFcf, fcfAt, nopatAt, ebitAt,
    revenueAt, nwcChangeAt, nwcLevel, capexAt, clampGet, aPole,
    PFloat.fin_div_fin_zero]

/-- Claim C3, amended — the source has no divergence check: for every
well-formed `AssumptionSet`, including every one with `discount_rate ≤
terminal_growth_rate`, `calculate_dcf` returns a normal result and the
terminal division `terminal_fcf / (discount_rate - terminal_growth_rate)`
is performed unconditionally (at equality the float division by zero
yields `±∞`/`NaN`, see the counterexample; no `DivergentTerminalValue`
error exists in the code). -/
theorem C3_no_divergence_check (a : DCFInputs) (hy : 1 ≤ a.years)
    (hg : a.revenue_growth_rates ≠ []) (hm : a.ebit_margins ≠ [])
    (hle : a.discount_rate ≤ a.terminal_growth_rate) :
    calculate_dcf a = .ok (mkResult a) ∧
    (mkResult a).terminal_value
      = terminalFcf a / (a.discount_rate - a.terminal_growth_rate) :=
  ⟨calculate_dcf_ok a (by omega) hg hm, rfl⟩

/-- C3 counterexample input in the exact model (same numbers as `aPole`). -/
def aPoleQ : DCFInputs :=
  { revenue_growth_rates := [1/10]
    ebit_margins := [1/5]
    tax_rate := 0
    nwc_percent := 0
    capex_percent := 0
    discount_rate := 1/50
    terminal_growth_rate := 1/50
    initial_revenue := 100
    years := 1 }

/-- Witness for the amended C3: the pole input satisfies the hypotheses of
`C3_no_divergence_check`, and the theorem applies to it. -/
theorem C3_no_divergence_check_witness :
    (1 ≤ aPoleQ.years ∧ aPoleQ.revenue_growth_rates ≠ [] ∧
      aPoleQ.ebit_margins ≠ [] ∧
      aPoleQ.discount_rate ≤ aPoleQ.terminal_growth_rate) ∧
    calculate_dcf aPoleQ = .ok (mkResult aPoleQ) :=
  ⟨⟨by decide, by decide, by decide, by norm_num [aPoleQ]⟩,
   (C3_no_divergence_check aPoleQ (by decide) (by decide) (by decide)
     (by norm_num [aPoleQ])).1⟩

/-!
## Claim C6 — input validation
-/

/-- C6 counterexample input: a non-finite `tax_rate` (`NaN`), every other
input benign, in the float model. -/
def aNan : DCFInputsG PFloat :=
  { revenue_growth_rates := [.fin (3/20)]
    ebit_margins := [.fin (1/4)]
    tax_rate := .nan
    nwc_percent := .fin (3/25)
    capex_percent := .fin (2/25)
    discount_rate := .fin (1/10)
    terminal_growth_rate := .fin (1/50)
    initial_revenue := .fin 1000000
    years := 1 }

/-- Counterexample to claim C6.  With a non-finite `tax_rate` the source
does not fail at all — there is no validation — and the `NaN` propagates
through `nopat`, `fcf` and the discounting into the returned
`enterprise_value`. -/
theorem C6_counterexample :
    aNan.tax_rate = PFloat.nan ∧
    calculate_dcf aNan = .ok (mkResult aNan) ∧
    (mkResult aNan).enterprise_value = PFloat.nan := by
  refine ⟨rfl, calculate_dcf_ok aNan (by decide) (by decide) (by decide), ?_⟩
  norm_num [mkResult, enterpriseValue, sumL, pvFcfAt, pvTerminalValue,
    terminalValue, terminalFcf, fcfAt, nopatAt, ebitAt, revenueAt,
    nwcChangeAt, nwcLevel, capexAt, clampGet, discountFactorAt, powN,
    aNan, List.range_succ]

/-- Claim C6, amended — `calculate_dcf` performs no input validation.
When `years < 1` or a rate sequence is empty it does fail eagerly, but
with a plain `IndexError` from the first out-of-range subscript (lines
39/45), not a distinguished `InvalidInput` error — no code path produces
`InvalidInput` (or any error other than that `IndexError`).  A non-finite
rate is not rejected at all: the call returns normally and `NaN`
propagates into the returned `enterprise_value` (see the
counterexample). -/
theorem C6_no_validation :
    (∀ a : DCFInputs,
      (a.years = 0 ∨ a.revenue_growth_rates = [] ∨ a.ebit_margins = []) →
      calculate_dcf a = .error .indexError) ∧
    (∀ (a : DCFInputs) (e : PyErr), calculate_dcf a = .error e →
      e = .indexError) := by
  constructor
  · intro a h
    simp [calculate_dcf, h]
  · intro a e
    rw [calculate_dcf]
    split
    · intro h
      injection h with h'
      exact h'.symm
    · intro h
      exact Except.noConfusion h

/-- C6 witness input: the reference inputs with `years = 0`. -/
def aZeroYears : DCFInputs := { aRef with years := 0 }

/-- Witness for the amended C6: `years = 0` satisfies the premise of
`C6_no_validation` and the theorem applies, giving the `IndexError`. -/
theorem C6_no_validation_witness :
    (aZeroYears.years = 0 ∨ aZeroYears.revenue_growth_rates = [] ∨
      aZeroYears.ebit_margins = []) ∧
    calculate_dcf aZeroYears = .error .indexError :=
  ⟨Or.inl rfl, C6_no_validation.1 aZeroYears (Or.inl rfl)⟩

/-!
## Claim C5 — empty candidate grid
-/

/-- Claim C5, amended — when the candidate grid is empty, `reverse_dcf`
returns `None` as a normal result (`closest_growth` is initialised to
`None` and never assigned): no `NoConvergence` error is raised — no such
error exists in the code. -/
theorem C5_empty_grid_returns_none (q : ReverseInputs) (h : gridOf q = []) :
    reverse_dcf q = .ok none := by
  rw [reverse_dcf, h]
  rfl

/-- C5 counterexample input: `min_growth = 0.5 > 0 = max_growth`, so the
grid `np.arange(0.5, 0, 0.001)` is empty. -/
def qEmptyGrid : ReverseInputs :=
  { current_price := 50
    shares_outstanding := 1000000
    net_debt := 500000
    initial_revenue := 1000000
    ebit_margins := [1/4, 13/50, 27/100, 27/100, 7/25]
    tax_rate := 1/4
    nwc_percent := 3/25
    capex_percent := 2/25
    discount_rate := 1/10
    terminal_growth_rate := 1/50
    years := 5
    iteration_range := (1/2, 0, 1/1000) }

/-- The candidate grid of `qEmptyGrid` is empty:
`⌈(0 - 1/2)/(1/1000)⌉ = -500`, whose `toNat` is `0`. -/
theorem gridOf_qEmptyGrid : gridOf qEmptyGrid = [] := by
  have h : (⌈(((0:ℚ) - 1/2) / (1/1000))⌉ : ℤ) = -500 := by
    rw [Int.ceil_eq_iff]
    norm_num
  rw [gridOf, qEmptyGrid]
  rw [arangeQ, h]
  rfl

/-- Counterexample to claim C5.  On an empty candidate set `reverse_dcf`
does not fail with `NoConvergence` (or any error): it returns `None`
normally. -/
theorem C5_counterexample :
    reverse_dcf qEmptyGrid = .ok none ∧
    ∀ e : PyErr, reverse_dcf qEmptyGrid ≠ .error e := by
  have h : reverse_dcf qEmptyGrid = .ok none := by
    rw [reverse_dcf, gridOf_qEmptyGrid]
    rfl
  exact ⟨h, fun e hc => by rw [h] at hc; exact Except.noConfusion hc⟩

/-- Witness for the amended C5: `qEmptyGrid` satisfies the hypothesis of
`C5_empty_grid_returns_none` and the theorem applies to it. -/
theorem C5_empty_grid_returns_none_witness :
    gridOf qEmptyGrid = [] ∧ reverse_dcf qEmptyGrid = .ok none :=
  ⟨gridOf_qEmptyGrid, C5_empty_grid_returns_none qEmptyGrid gridOf_qEmptyGrid⟩

/-!
## Claims C7 and C8 — sensitivity runner
-/

/-- A zero perturbation reconstructs the base inputs exactly: every field
is scaled by `1 + 0 = 1`. -/
theorem modifyInputs_zero (base : DCFInputs) (v : Variable) :
    modifyInputs base v 0 = base := by
  cases v <;> simp [modifyInputs]

/-- Claim C7 — for every valid base `AssumptionSet` with non-zero base
enterprise value and every recognised variable, a sensitivity run with
perturbation `0` reproduces the base enterprise value exactly and reports
a `value_change` fraction of `0`. -/
theorem C7_zero_perturbation (base : DCFInputs) (hy : 1 ≤ base.years)
    (hg : base.revenue_growth_rates ≠ []) (hm : base.ebit_margins ≠ [])
    (hev : (mkResult base).enterprise_value ≠ 0) (v : Variable) :
    sensitivity_analysis_var base v [0]
      = .ok [⟨0, (mkResult base).enterprise_value, 0⟩] := by
  have hok := calculate_dcf_ok base (by omega) hg hm
  have hmod : modifyInputs base v 0 = base := modifyInputs_zero base v
  simp [sensitivity_analysis_var, sensitivityRows, mapE, hok, hmod]

/-- C7 witness input: a one-year model with simple rates and a non-zero
enterprise value (`220`). -/
def aSmall : DCFInputs :=
  { revenue_growth_rates := [1/10]
    ebit_margins := [1/5]
    tax_rate := 0
    nwc_percent := 0
    capex_percent := 0
    discount_rate := 1/10
    terminal_growth_rate := 0
    initial_revenue := 100
    years := 1 }

/-- The enterprise value of `aSmall`: `fcf = 22`, discount factor
`10/11`, terminal value `220`, so `ev = 20 + 200 = 220`. -/
theorem enterpriseValue_aSmall : (mkResult aSmall).enterprise_value = 220 := by
  norm_num [mkResult, enterpriseValue, sumL, pvFcfAt, pvTerminalValue,
    terminalValue, terminalFcf, fcfAt, nopatAt, ebitAt, revenueAt,
    nwcChangeAt, nwcLevel, capexAt, clampGet, discountFactorAt, powN,
    aSmall, List.range_succ]

/-- Witness for C7: `aSmall` satisfies the hypotheses of
`C7_zero_perturbation` (non-zero base value included) and the theorem
applies to it at `variable = tax_rate`. -/
theorem C7_zero_perturbation_witness :
    (1 ≤ aSmall.years ∧ aSmall.revenue_growth_rates ≠ [] ∧
      aSmall.ebit_margins ≠ [] ∧ (mkResult aSmall).enterprise_value ≠ 0) ∧
    sensitivity_analysis_var aSmall .tax_rate [0]
      = .ok [⟨0, (mkResult aSmall).enterprise_value, 0⟩] :=
  ⟨⟨by decide, by decide, by decide,
    by rw [enterpriseValue_aSmall]; norm_num⟩,
   C7_zero_perturbation aSmall (by decide) (by decide) (by decide)
     (by rw [enterpriseValue_aSmall]; norm_num) .tax_rate⟩

/-- Claim C8 — the modified `AssumptionSet` a sensitivity run passes to
`calculate_dcf` (see `sensitivityRows`) differs from the base only in the
named variable: that field is scaled by `1 + p` (element-wise for the two
sequence fields), and every other field, `years` included, equals the base
value. -/
theorem C8_frame (base : DCFInputs) (v : Variable) (p : ℚ) :
    (modifyInputs base v p).years = base.years ∧
    (modifyInputs base v p).revenue_growth_rates
      = (if v = .revenue_growth_rates
          then base.revenue_growth_rates.map (· * (1 + p))
          else base.revenue_growth_rates) ∧
    (modifyInputs base v p).ebit_margins
      = (if v = .ebit_margins
          then base.ebit_margins.map (· * (1 + p))
          else base.ebit_margins) ∧
    (modifyInputs base v p).tax_rate
      = (if v = .tax_rate then base.tax_rate * (1 + p) else base.tax_rate) ∧
    (modifyInputs base v p).nwc_percent
      = (if v = .nwc_percent then base.nwc_percent * (1 + p)
          else base.nwc_percent) ∧
    (modifyInputs base v p).capex_percent
      = (if v = .capex_percent then base.capex_percent * (1 + p)
          else base.capex_percent) ∧
    (modifyInputs base v p).discount_rate
      = (if v = .discount_rate then base.discount_rate * (1 + p)
          else base.discount_rate) ∧
    (modifyInputs base v p).terminal_growth_rate
      = (if v = .terminal_growth_rate
          then base.terminal_growth_rate * (1 + p)
          else base.terminal_growth_rate) ∧
    (modifyInputs base v p).initial_revenue
      = (if v = .initial_revenue then base.initial_revenue * (1 + p)
          else base.initial_revenue) := by
  cases v <;> simp [modifyInputs]

/-!
## Claim C4 — the grid scan of `reverse_dcf`
-/

/-- The enterprise value `reverse_dcf` computes for one candidate flat
growth rate. -/
def evQ (q : ReverseInputs) (g : ℚ) : ℚ :=
  enterpriseValue (mkGrowthInputs q g)

/-- The strict-improvement scan of source lines 226–228, as a recursive
function: starting from current best `b`, a later candidate replaces the
best only when its figure of merit is strictly smaller. -/
def firstArgmin1 (f : ℚ → ℚ) : ℚ → List ℚ → ℚ
  | b, [] => b
  | b, x :: xs => if f x < f b then firstArgmin1 f x xs else firstArgmin1 f b xs

/-- The scan result minimises `f` over the initial best and all scanned
candidates. -/
theorem firstArgmin1_min (f : ℚ → ℚ) :
    ∀ (l : List ℚ) (b : ℚ),
      f (firstArgmin1 f b l) ≤ f b ∧ ∀ x ∈ l, f (firstArgmin1 f b l) ≤ f x := by
  intro l
  induction l with
  | nil => intro b; exact ⟨le_refl _, by simp⟩
  | cons c l ih =>
    intro b
    by_cases h : f c < f b
    · rw [firstArgmin1, if_pos h]
      refine ⟨le_trans (ih c).1 (le_of_lt h), ?_⟩
      intro x hx
      rcases List.mem_cons.mp hx with hx | hx
      · rw [hx]; exact (ih c).1
      · exact (ih c).2 x hx
    · rw [firstArgmin1, if_neg h]
      refine ⟨(ih b).1, ?_⟩
      intro x hx
      rcases List.mem_cons.mp hx with hx | hx
      · rw [hx]; exact le_trans (ih b).1 (not_lt.mp h)
      · exact (ih b).2 x hx

/-- The scan result is the FIRST position attaining the minimum: it occurs
in `b :: l`, and every strictly earlier position has a strictly larger
figure of merit. -/
theorem firstArgmin1_first (f : ℚ → ℚ) :
    ∀ (l : List ℚ) (b : ℚ),
      ∃ i, i < (b :: l).length ∧
        firstArgmin1 f b l = (b :: l).getD i 0 ∧
        ∀ j, j < i → f (firstArgmin1 f b l) < f ((b :: l).getD j 0) := by
  intro l
  induction l with
  | nil =>
    intro b
    exact ⟨0, by simp, rfl, fun j hj => absurd hj (by omega)⟩
  | cons c l ih =>
    intro b
    by_cases h : f c < f b
    · rw [firstArgmin1, if_pos h]
      obtain ⟨i, hi, heq, hfirst⟩ := ih c
      refine ⟨i + 1, by simpa using hi, heq, ?_⟩
      intro j hj
      cases j with
      | zero =>
        calc f (firstArgmin1 f c l) ≤ f c := (firstArgmin1_min f l c).1
        _ < f b := h
      | succ k => exact hfirst k (by omega)
    · rw [firstArgmin1, if_neg h]
      obtain ⟨i, hi, heq, hfirst⟩ := ih b
      cases i with
      | zero =>
        exact ⟨0, by simp, heq, fun j hj => absurd hj (by omega)⟩
      | succ k =>
        refine ⟨k + 2, by simpa using hi, heq, ?_⟩
        intro j hj
        cases j with
        | zero => exact hfirst 0 (by omega)
        | succ m =>
          cases m with
          | zero =>
            calc f (firstArgmin1 f b l) < f b := hfirst 0 (by omega)
            _ ≤ f c := not_lt.mp h
          | succ m' => exact hfirst (m' + 1) (by omega)

/-- The loop of source lines 209–228, state `(closest, min_difference)`,
computes `firstArgmin1`: processing the list from the state `(some b,
some (f b))` ends in the state for `firstArgmin1 f b l`. -/
theorem foldl_scanStep_eq (f : ℚ → ℚ) :
    ∀ (l : List ℚ) (b : ℚ),
      l.foldl (scanStep f) (some b, some (f b))
        = (some (firstArgmin1 f b l), some (f (firstArgmin1 f b l))) := by
  intro l
  induction l with
  | nil => intro b; simp [firstArgmin1]
  | cons x xs ih =>
    intro b
    rw [List.foldl_cons]
    by_cases h : f x < f b
    · rw [show scanStep f (some b, some (f b)) x = (some x, some (f x)) by
        simp [scanStep, ltInf, h]]
      rw [ih x, firstArgmin1, if_pos h]
    · rw [show scanStep f (some b, some (f b)) x = (some b, some (f b)) by
        simp [scanStep, ltInf, h]]
      rw [ih b, firstArgmin1, if_neg h]

/-- `scanStep` only evaluates its figure of merit at the scanned
candidate. -/
theorem scanStep_congr (f₁ f₂ : ℚ → ℚ) (st : Option ℚ × Option ℚ) (g : ℚ)
    (h : f₁ g = f₂ g) : scanStep f₁ st g = scanStep f₂ st g := by
  simp only [scanStep, h]

/-- On a well-formed query every `calculate_dcf` call inside the scan
succeeds, so the exception-aware loop is the pure strict-improvement
scan. -/
theorem foldE_reverseStep_ok (q : ReverseInputs) (hy : q.years ≠ 0)
    (hm : q.ebit_margins ≠ []) :
    ∀ (l : List ℚ) (st : Option ℚ × Option ℚ),
      foldE (reverseStep q) st l
        = .ok (l.foldl (scanStep (fun g => |evQ q g - targetEv q|)) st) := by
  intro l
  induction l with
  | nil => intro st; rfl
  | cons g l ih =>
    intro st
    have hgrow : (mkGrowthInputs q g).revenue_growth_rates ≠ [] := by
      simp [mkGrowthInputs, List.replicate_eq_nil_iff, hy]
    have hok : calculate_dcf (mkGrowthInputs q g)
        = .ok (mkResult (mkGrowthInputs q g)) :=
      calculate_dcf_ok _ hy hgrow hm
    rw [List.foldl_cons, ← ih]
    simp only [foldE, reverseStep, hok]
    rw [scanStep_congr (fun _ => |(mkResult (mkGrowthInputs q g)).enterprise_value - targetEv q|)
      (fun g' => |evQ q g' - targetEv q|) st g rfl]

/-- On a well-formed query with a non-empty candidate grid, `reverse_dcf`
returns the strict-improvement scan of the grid. -/
theorem reverse_dcf_eq (q : ReverseInputs) (hy : q.years ≠ 0)
    (hm : q.ebit_margins ≠ []) (g0 : ℚ) (l : List ℚ)
    (hgrid : gridOf q = g0 :: l) :
    reverse_dcf q
      = .ok (some (firstArgmin1 (fun g => |evQ q g - targetEv q|) g0 l)) := by
  rw [reverse_dcf, hgrid, foldE_reverseStep_ok q hy hm, List.foldl_cons]
  rw [show scanStep (fun g => |evQ q g - targetEv q|) (none, none) g0
      = (some g0, some (|evQ q g0 - targetEv q|)) by simp [scanStep, ltInf]]
  rw [foldl_scanStep_eq]

/-- An in-range `getD` read is a member of the list. -/
theorem getD_lt_mem {l : List ℚ} {j : ℕ} (h : j < l.length) :
    l.getD j 0 ∈ l := by
  rw [List.getD_eq_getElem?_getD, List.getElem?_eq_getElem h]
  exact List.getElem_mem h

/-- Every point of the half-open grid `np.arange(s, e, st)` (positive
step) lies in `[s, e)`: in particular, when `e` is an exact multiple of
`st` away from `s` it is excluded. -/
theorem arangeQ_mem_bounds (s e st : ℚ) (hst : 0 < st) :
    ∀ x ∈ arangeQ s e st, s ≤ x ∧ x < e := by
  intro x hx
  rw [arangeQ] at hx
  obtain ⟨i, hi, rfl⟩ := List.mem_map.mp hx
  rw [List.mem_range] at hi
  constructor
  · have h0 : (0:ℚ) ≤ (i:ℚ) * st := mul_nonneg (by positivity) (le_of_lt hst)
    linarith
  · have h1 : (i : ℤ) < ⌈(e - s)/st⌉ := Int.lt_toNat.mp hi
    have h2 : ((i : ℚ) + 1) ≤ (⌈(e - s)/st⌉ : ℚ) := by exact_mod_cast h1
    have h3 : (⌈(e - s)/st⌉ : ℚ) < (e - s)/st + 1 := Int.ceil_lt_add_one _
    have h4 : (i : ℚ) < (e - s)/st := by linarith
    have h5 : (i : ℚ) * st < ((e - s)/st) * st :=
      mul_lt_mul_of_pos_right h4 hst
    rw [div_mul_cancel₀ _ (ne_of_gt hst)] at h5
    linarith

/-- Claim C4 — for every well-formed query with a non-empty candidate grid,
`reverse_dcf` returns the grid candidate minimising
`|enterprise_value(flat g) - target_ev|`, with `target_ev =
current_price·shares_outstanding + net_debt`, and among candidates
attaining the minimum it returns the first in ascending scan order
(strict-improvement tie-break).  Additionally, for a positive step the
grid is half-open: every candidate lies in `[min_growth, max_growth)`, so
an upper bound reachable by an exact multiple of the step is excluded. -/
theorem C4_reverse_solver (q : ReverseInputs) (hy : 1 ≤ q.years)
    (hm : q.ebit_margins ≠ []) (hne : gridOf q ≠ []) :
    (∃ i, i < (gridOf q).length ∧
      reverse_dcf q = .ok (some ((gridOf q).getD i 0)) ∧
      (∀ j, j < (gridOf q).length →
        |evQ q ((gridOf q).getD i 0) - targetEv q|
          ≤ |evQ q ((gridOf q).getD j 0) - targetEv q|) ∧
      (∀ j, j < i →
        |evQ q ((gridOf q).getD i 0) - targetEv q|
          < |evQ q ((gridOf q).getD j 0) - targetEv q|)) ∧
    (0 < q.iteration_range.2.2 →
      ∀ x ∈ gridOf q,
        q.iteration_range.1 ≤ x ∧ x < q.iteration_range.2.1) := by
  constructor
  · obtain ⟨g0, l, hgrid⟩ : ∃ g0 l, gridOf q = g0 :: l := by
      cases hg : gridOf q with
      | nil => exact absurd hg hne
      | cons a b => exact ⟨a, b, rfl⟩
    set f : ℚ → ℚ := fun g => |evQ q g - targetEv q| with hf
    have hsolve := reverse_dcf_eq q (by omega) hm g0 l hgrid
    obtain ⟨i, hi, heq, hfirst⟩ := firstArgmin1_first f l g0
    have hmin := firstArgmin1_min f l g0
    refine ⟨i, by rw [hgrid]; exact hi, ?_, ?_, ?_⟩
    · rw [hsolve, hgrid, heq]
    · intro j hj
      rw [hgrid] at hj ⊢
      rw [← heq]
      have hmem : (g0 :: l).getD j 0 ∈ g0 :: l := getD_lt_mem hj
      rcases List.mem_cons.mp hmem with hc | hc
      · rw [hc]; exact hmin.1
      · exact hmin.2 _ hc
    · intro j hj
      rw [hgrid, ← heq]
      exact hfirst j hj
  · intro hstep x hx
    exact arangeQ_mem_bounds _ _ _ hstep x hx

/-- C4/C9 witness input: a one-year query with grid `np.arange(0, 0.2,
0.1) = [0, 0.1]` and target enterprise value `-1000` (so the first
candidate is the unique minimiser). -/
def qSmall : ReverseInputs :=
  { current_price := 0
    shares_outstanding := 0
    net_debt := -1000
    initial_revenue := 100
    ebit_margins := [1/5]
    tax_rate := 0
    nwc_percent := 0
    capex_percent := 0
    discount_rate := 1/10
    terminal_growth_rate := 0
    years := 1
    iteration_range := (0, 1/5, 1/10) }

/-- The candidate grid of `qSmall`: `⌈(0.2 - 0)/0.1⌉ = 2` points. -/
theorem gridOf_qSmall : gridOf qSmall = [0, 1/10] := by
  have h : (⌈(((1:ℚ)/5 - 0) / (1/10))⌉ : ℤ) = 2 := by norm_num
  show arangeQ 0 (1/5) (1/10) = [0, 1/10]
  rw [arangeQ, h, show List.range (Int.toNat 2) = [0, 1] from by decide]
  simp only [List.map_cons, List.map_nil]
  norm_num

/-- The candidate enterprise value of `qSmall` at flat growth `g`:
`fcf = 20(1+g)`, terminal value `200(1+g)`, both discounted by `10/11`,
so `ev = 200(1+g)`. -/
theorem evQ_qSmall (g : ℚ) : evQ qSmall g = 200 * (1 + g) := by
  norm_num [evQ, enterpriseValue, sumL, pvFcfAt, pvTerminalValue,
    terminalValue, terminalFcf, fcfAt, nopatAt, ebitAt, revenueAt,
    nwcChangeAt, nwcLevel, capexAt, clampGet, discountFactorAt, powN,
    mkGrowthInputs, qSmall, List.range_succ, List.replicate_one]
  ring

/-- `target_ev` of `qSmall`: `0·0 + (-1000)`. -/
theorem targetEv_qSmall : targetEv qSmall = -1000 := by
  norm_num [targetEv, qSmall]

/-- The base solve of `qSmall` picks the first candidate `0`
(`|200·1.1+1000| = 1220 > 1200 = |200+1000|`). -/
theorem reverse_dcf_qSmall : reverse_dcf qSmall = .ok (some 0) := by
  have hf1 : |evQ qSmall (1/10) - targetEv qSmall| = 1220 := by
    rw [evQ_qSmall, targetEv_qSmall, abs_of_nonneg (by norm_num)]
    norm_num
  have hf0 : |evQ qSmall 0 - targetEv qSmall| = 1200 := by
    rw [evQ_qSmall, targetEv_qSmall, abs_of_nonneg (by norm_num)]
    norm_num
  rw [reverse_dcf_eq qSmall (by decide) (by decide) 0 [1/10] gridOf_qSmall]
  simp only [firstArgmin1]
  rw [hf1, hf0]
  norm_num

/-- Witness for C4: `qSmall` satisfies the hypotheses of
`C4_reverse_solver` (non-empty grid included), and the theorem applies
to it. -/
theorem C4_reverse_solver_witness :
    (1 ≤ qSmall.years ∧ qSmall.ebit_margins ≠ [] ∧ gridOf qSmall ≠ []) ∧
    (∃ i, i < (gridOf qSmall).length ∧
      reverse_dcf qSmall = .ok (some ((gridOf qSmall).getD i 0)) ∧
      (∀ j, j < (gridOf qSmall).length →
        |evQ qSmall ((gridOf qSmall).getD i 0) - targetEv qSmall|
          ≤ |evQ qSmall ((gridOf qSmall).getD j 0) - targetEv qSmall|) ∧
      (∀ j, j < i →
        |evQ qSmall ((gridOf qSmall).getD i 0) - targetEv qSmall|
          < |evQ qSmall ((gridOf qSmall).getD j 0) - targetEv qSmall|)) :=
  ⟨⟨by decide, by decide, by rw [gridOf_qSmall]; simp⟩,
   (C4_reverse_solver qSmall (by decide) (by decide)
     (by rw [gridOf_qSmall]; simp)).1⟩

/-!
## Claim C9 — reverse sensitivity runner
-/

/-- Counterexample to claim C9.  `reverse_dcf_sensitivity` does not handle
sequence-valued fields: perturbing `ebit_margins` does not build a query
with element-wise-scaled margins — the un-guarded `base_var_value * (1 +
pct_change)` of source line 254 is Python list-times-float, a `TypeError`,
and the whole sensitivity call fails. -/
theorem C9_counterexample :
    reverseModify qSmall RVariable.ebit_margins (1/10) = .error .typeError ∧
    reverse_dcf_sensitivity_var qSmall .ebit_margins [1/10]
      = .error .typeError := by
  refine ⟨rfl, ?_⟩
  simp only [reverse_dcf_sensitivity_var, reverse_dcf_qSmall, mapE,
    reverseRow, reverseModify]

/-- Claim C9, amended — `reverse_dcf_sensitivity` follows the
perturb-and-recompute shape of the forward runner for SCALAR fields only:
the modified query scales the named scalar field by `1 + p` (source line
254 has no `isinstance(..., list)` branch), the sequence field
`ebit_margins` is not element-scaled (a fractional multiplier raises
`TypeError`; an exactly-integral one would be list repetition), and each
row reports `growth_delta = implied_growth - base_growth` with
`base_growth` solved once up front. -/
theorem C9_scalar_only_shape :
    (∀ (q : ReverseInputs) (p : ℚ),
      reverseModify q RVariable.ebit_margins p = .error .typeError) ∧
    (∀ (q : ReverseInputs) (p : ℚ),
      reverseModify q .current_price p
        = .ok { q with current_price := q.current_price * (1 + p) } ∧
      reverseModify q .shares_outstanding p
        = .ok { q with shares_outstanding := q.shares_outstanding * (1 + p) } ∧
      reverseModify q .net_debt p
        = .ok { q with net_debt := q.net_debt * (1 + p) } ∧
      reverseModify q .initial_revenue p
        = .ok { q with initial_revenue := q.initial_revenue * (1 + p) } ∧
      reverseModify q .tax_rate p
        = .ok { q with tax_rate := q.tax_rate * (1 + p) } ∧
      reverseModify q .nwc_percent p
        = .ok { q with nwc_percent := q.nwc_percent * (1 + p) } ∧
      reverseModify q .capex_percent p
        = .ok { q with capex_percent := q.capex_percent * (1 + p) } ∧
      reverseModify q .discount_rate p
        = .ok { q with discount_rate := q.discount_rate * (1 + p) } ∧
      reverseModify q .terminal_growth_rate p
        = .ok { q with terminal_growth_rate :=
            q.terminal_growth_rate * (1 + p) }) ∧
    (∀ (q : ReverseInputs) (v : RVariable) (ps : List ℚ) (b : ℚ) (ig : ℚ → ℚ),
      reverse_dcf q = .ok (some b) →
      (∀ p ∈ ps, ∃ q', reverseModify q v p = .ok q' ∧
        reverse_dcf q' = .ok (some (ig p))) →
      reverse_dcf_sensitivity_var q v ps
        = .ok (ps.map (fun p => ⟨p, ig p, ig p - b⟩))) := by
  refine ⟨fun q p => rfl,
    fun q p => ⟨rfl, rfl, rfl, rfl, rfl, rfl, rfl, rfl, rfl⟩, ?_⟩
  intro q v ps b ig hb hps
  have key : ∀ (l : List ℚ),
      (∀ p ∈ l, ∃ q', reverseModify q v p = .ok q' ∧
        reverse_dcf q' = .ok (some (ig p))) →
      mapE (reverseRow q v (some b)) l
        = .ok (l.map (fun p => ⟨p, ig p, ig p - b⟩)) := by
    intro l
    induction l with
    | nil => intro _; rfl
    | cons p l ih =>
      intro hl
      obtain ⟨q', hq', hsolve⟩ := hl p (List.mem_cons_self p l)
      have hrow : reverseRow q v (some b) p = .ok ⟨p, ig p, ig p - b⟩ := by
        simp only [reverseRow, hq', hsolve]
      simp only [mapE, hrow,
        ih (fun x hx => hl x (List.mem_cons_of_mem p hx)), List.map_cons]
  simp only [reverse_dcf_sensitivity_var, hb]
  exact key ps hps

/-- Witness for the amended C9: at `qSmall`, variable `net_debt`,
perturbation list `[0]`, the hypotheses of the shape conjunct hold
(`base_growth = 0`, implied growth `0`) and the theorem applies. -/
theorem C9_scalar_only_shape_witness :
    (reverse_dcf qSmall = .ok (some 0) ∧
      (∀ p ∈ [(0:ℚ)], ∃ q',
        reverseModify qSmall RVariable.net_debt p = .ok q' ∧
        reverse_dcf q' = .ok (some 0))) ∧
    reverse_dcf_sensitivity_var qSmall .net_debt [0]
      = .ok [⟨0, 0, 0 - 0⟩] := by
  have hmod : reverseModify qSmall RVariable.net_debt 0 = .ok qSmall := by
    have hnd : qSmall.net_debt * (1 + 0) = qSmall.net_debt := by norm_num
    simp only [reverseModify, hnd]
  have hp : ∀ p ∈ [(0:ℚ)], ∃ q',
      reverseModify qSmall RVariable.net_debt p = .ok q' ∧
      reverse_dcf q' = .ok (some 0) := by
    intro p hpm
    rw [List.mem_singleton] at hpm
    subst hpm
    exact ⟨qSmall, hmod, reverse_dcf_qSmall⟩
  exact ⟨⟨reverse_dcf_qSmall, hp⟩,
    C9_scalar_only_shape.2.2 qSmall .net_debt [0] 0 (fun _ => 0)
      reverse_dcf_qSmall hp⟩

/-!
## Claim C10 — the candidate only replaces the growth rates
-/

/-- Claim C10 — inside the `reverse_dcf` scan a candidate `g` only
replaces `revenue_growth_rates` (by `[g] * years`); every other field of
the per-candidate inputs, `discount_rate` and `terminal_growth_rate`
included, is the query's fixed value, so the terminal-value denominator of
every candidate evaluation is the fixed `discount_rate -
terminal_growth_rate`, which is non-zero whenever `discount_rate >
terminal_growth_rate` — no candidate, even one with `g ≥ discount_rate`,
can make the Gordon division divide by zero. -/
theorem C10_fixed_denominator (q : ReverseInputs) (g : ℚ)
    (hd : q.terminal_growth_rate < q.discount_rate) :
    (mkGrowthInputs q g).revenue_growth_rates = List.replicate q.years g ∧
    (mkGrowthInputs q g).ebit_margins = q.ebit_margins ∧
    (mkGrowthInputs q g).tax_rate = q.tax_rate ∧
    (mkGrowthInputs q g).nwc_percent = q.nwc_percent ∧
    (mkGrowthInputs q g).capex_percent = q.capex_percent ∧
    (mkGrowthInputs q g).discount_rate = q.discount_rate ∧
    (mkGrowthInputs q g).terminal_growth_rate = q.terminal_growth_rate ∧
    (mkGrowthInputs q g).initial_revenue = q.initial_revenue ∧
    (mkGrowthInputs q g).years = q.years ∧
    terminalValue (mkGrowthInputs q g)
      = terminalFcf (mkGrowthInputs q g)
          / (q.discount_rate - q.terminal_growth_rate) ∧
    q.discount_rate - q.terminal_growth_rate ≠ 0 :=
  ⟨rfl, rfl, rfl, rfl, rfl, rfl, rfl, rfl, rfl, rfl,
   sub_ne_zero_of_ne (ne_of_gt hd)⟩

/-- Witness for C10: `qSmall` (discount `0.1` above terminal growth `0`),
candidate `g = 1/4` above the discount rate, satisfies the hypothesis and
the theorem applies. -/
theorem C10_fixed_denominator_witness :
    qSmall.terminal_growth_rate < qSmall.discount_rate ∧
    qSmall.discount_rate - qSmall.terminal_growth_rate ≠ 0 :=
  ⟨by norm_num [qSmall],
   (C10_fixed_denominator qSmall (1/4)
     (by norm_num [qSmall])).2.2.2.2.2.2.2.2.2.2⟩
